import Mathlib

/-!
Verification of the provider discovery and capability registry
(`airflow/providers_manager.py`).

The Python module is shallowly embedded below.  Python `dict`s are
association lists preserving insertion order (`pyLookup`, `pyDictInsert`),
Python `set`s are duplicate-free lists (`setAdd`), and `sorted(d.items())`
is a stable insertion sort on the key component (`sortDict`).  External
effects (the two JSON-schema validators, `import_string`,
`importlib.import_module`, entry points of installed distributions and the
local source tree) are supplied by an explicit environment record `Env`.
-/

namespace Airflow

/-- Lookup in a Python dict modelled as an association list: first binding
of the key wins (a Python dict never holds two bindings of one key, but the
model keeps the general definition). Models `d.get(k)` / `d[k]` reads. -/
def pyLookup {α : Type} (k : String) : List (String × α) → Option α
  | [] => none
  | (k', v) :: rest => if k' = k then some v else pyLookup k rest

/-- Assignment `d[k] = v` on a Python dict: if the key is present its value
is replaced in place (position kept), otherwise the binding is appended. -/
def pyDictInsert {α : Type} (k : String) (v : α) : List (String × α) → List (String × α)
  | [] => [(k, v)]
  | (k', v') :: rest => if k' = k then (k, v) :: rest else (k', v') :: pyDictInsert k v rest

/-- Number of bindings of key `k` in the association list. -/
def countKey {α : Type} (k : String) (d : List (String × α)) : Nat :=
  (d.filter (fun e => e.1 = k)).length

/-- Python `set.add` on a duplicate-free list model of a set. -/
def setAdd (x : String) (l : List String) : List String :=
  if x ∈ l then l else l ++ [x]

/-- Key-component order used by `sorted(d.items())`: Python compares the
tuples, and since keys in a dict are unique the order is decided by the
key alone. -/
def keyLe {α : Type} (a b : String × α) : Prop := a.1 ≤ b.1

instance {α : Type} : DecidableRel (@keyLe α) :=
  fun a b => inferInstanceAs (Decidable (a.1 ≤ b.1))

instance {α : Type} : IsTotal (String × α) keyLe :=
  ⟨fun a b => le_total a.1 b.1⟩

instance {α : Type} : IsTrans (String × α) keyLe :=
  ⟨fun _ _ _ h1 h2 => le_trans h1 h2⟩

/-- Models Python `OrderedDict(sorted(d.items()))`: a stable sort on keys. -/
def sortDict {α : Type} (d : List (String × α)) : List (String × α) :=
  List.insertionSort keyLe d

/-- Models Python `sorted(s)` on a set of names. -/
def sortNames (l : List String) : List String :=
  List.insertionSort (fun a b : String => a ≤ b) l

/-- Field classes of `wtforms` as far as the registry can see them:
the four allow-listed classes and everything else. -/
inductive FieldClass : Type
  | IntegerField
  | PasswordField
  | StringField
  | BooleanField
  | Other (name : String)
deriving DecidableEq, Repr

/-- Models `ALLOWED_FIELD_CLASSES = [IntegerField, PasswordField, StringField, BooleanField]`. -/
def ALLOWED_FIELD_CLASSES : List FieldClass :=
  [FieldClass.IntegerField, FieldClass.PasswordField, FieldClass.StringField,
   FieldClass.BooleanField]

/-- Provider manifest (`provider_info` dictionary).  Optional capability
lists that are absent in the document are the empty list — the code treats
an absent key and an empty list identically (`provider.get(key)` is falsy
in both cases). -/
structure Manifest : Type where
  packageName : String
  versions : List String
  hookClassNames : List String
  extraLinks : List String
  loggingNames : List String
  secretsBackendNames : List String
  authBackendNames : List String
deriving DecidableEq, Repr

/-- Models the `ProviderInfo` named tuple. -/
structure ProviderInfo : Type where
  version : String
  provider_info : Manifest
deriving DecidableEq, Repr

/-- Models the `HookInfo` named tuple. -/
structure HookInfo : Type where
  connection_class : String
  connection_id_attribute_name : String
  package_name : String
  hook_name : String
deriving DecidableEq, Repr

/-- Models the `ConnectionFormWidgetInfo` named tuple; the stored `field`
instance is represented by its field class, which is all the registry
inspects. -/
structure ConnectionFormWidgetInfo : Type where
  connection_class : String
  package_name : String
  field : FieldClass
deriving DecidableEq, Repr

/-- Result of `importlib.import_module` + `getattr` on a declared hook
class path: the attributes of the class object that `_add_hook` reads.
`widgetsDecl` is `some r` when `get_connection_form_widgets` is in the
class's own `__dict__` (`r` the outcome of calling it, `Except.error` a
raised exception); likewise `behaviourDecl` for `get_ui_field_behaviour`,
whose successful result may itself be falsy (`none`).  The three
`Option String` attributes are `none` when absent from the class. -/
structure HookClass : Type where
  className : String
  widgetsDecl : Option (Except Unit (List (String × FieldClass)))
  behaviourDecl : Option (Except Unit (Option String))
  conn_type : Option String
  conn_name_attr : Option String
  hook_name : Option String
deriving Repr

/-- An installed distribution advertising the `apache_airflow_provider`
entry point: its metadata name, its metadata version, and the outcome of
`entry_point.load()()` (`Except.error` when that call raises). -/
structure Dist : Type where
  metadataName : String
  version : String
  load : Except Unit Manifest
deriving Repr

/-- In-source directory tree: a directory has a name, optionally a
`provider.yaml` file (with the outcome of opening + `yaml.safe_load`,
`Except.error` modelling a read/parse failure), and subdirectories.
Files other than `provider.yaml` are invisible to the scanner
(`fnmatch.filter(files, "provider.yaml")` drops them). -/
inductive FTree : Type
  | node (name : String) (descriptor : Option (Except Unit Manifest)) (children : List FTree)

/-- Name of the directory at the root of the tree. -/
def FTree.name : FTree → String
  | .node n _ _ => n

/-- Environment: everything outside the registry that the module calls. -/
structure Env : Type where
  schemaValid : Manifest → Bool
  behaviourValid : String → Bool
  importOk : String → Bool
  importHookClass : String → Option HookClass
  hasProvidersPackage : Bool
  localRoots : List FTree
  dists : List Dist

/-- Models Python `s.startswith(p)` on strings, as a computation on the
underlying character lists. -/
def pyStartsWith (s p : String) : Bool :=
  p.data.isPrefixOf s.data

/-- Models `_sanity_check(provider_package, class_name)`: for packages
starting with `"apache-airflow"` the class path must start with the
package-derived module path (the package name with `"apache-"` removed and
hyphens replaced by dots); in every case the class must then be importable
(`import_string` raising no exception). -/
def sanity_check (env : Env) (provider_package class_name : String) : Bool :=
  if pyStartsWith provider_package "apache-airflow"
      ∧ ¬ pyStartsWith class_name ((provider_package.drop 7).replace "-" ".") then
    false
  else
    env.importOk class_name

/-- Truthiness of a possibly-missing string attribute: Python
`not conn_type` holds when the attribute is `None` (missing, `_get_attr`
returned `None`) or the empty string. -/
def truthy : Option String → Bool
  | none => false
  | some s => s ≠ ""

/-- Full mutable state of a `ProvidersManager` instance, plus the call
counter on the `list` initialization body that the specification's
testable property 2 instruments it with (`list_run_count`). -/
structure MgrState : Type where
  cache : List String
  provider_dict : List (String × ProviderInfo)
  hooks_dict : List (String × HookInfo)
  connection_form_widgets : List (String × ConnectionFormWidgetInfo)
  field_behaviours : List (String × String)
  extra_links : List String
  logging_classes : List String
  secrets_backends : List String
  auth_backends : List String
  list_run_count : Nat
deriving DecidableEq, Repr

/-- Models `ProvidersManager.__init__`: all tables empty, no category
initialized. -/
def initState : MgrState :=
  { cache := [], provider_dict := [], hooks_dict := [],
    connection_form_widgets := [], field_behaviours := [],
    extra_links := [], logging_classes := [], secrets_backends := [],
    auth_backends := [], list_run_count := 0 }

/-- Models `_add_provider_info_from_local_source_file(path, package_name)`:
parse (already done, outcome in `content`), validate, take `versions[0]`,
insert when the key is fresh; any exception in the body (parse error,
schema violation, missing or empty `versions`) is caught, logged and the
provider skipped. -/
def addProviderFromFile (env : Env) (package_name : String)
    (content : Except Unit Manifest)
    (d : List (String × ProviderInfo)) : List (String × ProviderInfo) :=
  match content with
  | .error _ => d
  | .ok provider_info =>
    if ¬ env.schemaValid provider_info then d
    else
      match provider_info.versions with
      | [] => d
      | version :: _ =>
        if (pyLookup package_name d).isNone then
          d ++ [(package_name, ⟨version, provider_info⟩)]
        else d

/-- Package name synthesized by the in-source scan:
`"apache-airflow-providers" + folder[len(root_path):].replace(os.sep, "-")`
for a folder at relative path `relParts` below the walk root. -/
def pkgNameOf (relParts : List String) : String :=
  "apache-airflow-providers" ++ String.join (relParts.map (fun p => "-" ++ p))

/-- Depth-first walk over sibling directories at relative path `relParts`,
modelling the recursion of `os.walk(path, topdown=True)` inside
`_add_provider_info_from_local_source_files_on_path`: a directory holding
a `provider.yaml` is registered under the synthesized name and
`subdirs[:] = []` prunes the walk (its children are never visited); a
directory without one is descended into before its later siblings. -/
def walkF (env : Env) (relParts : List String) (ts : List FTree)
    (d : List (String × ProviderInfo)) : List (String × ProviderInfo) :=
  match ts with
  | [] => d
  | FTree.node n (some content) _ :: rest =>
    walkF env relParts rest
      (addProviderFromFile env (pkgNameOf (relParts ++ [n])) content d)
  | FTree.node n none kids :: rest =>
    walkF env relParts rest (walkF env (relParts ++ [n]) kids d)
termination_by sizeOf ts

/-- The walk started at one root directory (the root itself has relative
path `""`, hence an empty `relParts`). -/
def walkTree (env : Env) (relParts : List String) (t : FTree)
    (d : List (String × ProviderInfo)) : List (String × ProviderInfo) :=
  match t with
  | .node _ (some content) _ =>
    addProviderFromFile env (pkgNameOf relParts) content d
  | .node _ none children => walkF env relParts children d

/-- Models `_discover_all_airflow_builtin_providers_from_local_sources`:
when `airflow.providers` cannot be imported there are no local providers;
otherwise each entry of its `__path__` is walked as a root (the root
folder itself having relative path `""`). -/
def discoverLocalDict (env : Env)
    (d : List (String × ProviderInfo)) : List (String × ProviderInfo) :=
  if env.hasProvidersPackage then
    env.localRoots.foldl (fun d r => walkTree env [] r d) d
  else d

/-- Models one iteration of the loop in
`_discover_all_providers_from_packages`.  Returns the updated dict and
`true`, or the dict as mutated so far and `false` when the iteration
raises (entry-point load failure, schema-validation failure, or the
explicit name-mismatch `raise`); the membership pre-check skips a
duplicate before anything is loaded.  The final `else` branch (warning
about an already-registered name) is unreachable: the pre-check already
skipped present keys. -/
def processDist (env : Env) (d : List (String × ProviderInfo))
    (dist : Dist) : List (String × ProviderInfo) × Bool :=
  if (pyLookup dist.metadataName d).isSome then (d, true)
  else
    match dist.load with
    | .error _ => (d, false)
    | .ok provider_info =>
      if ¬ env.schemaValid provider_info then (d, false)
      else if dist.metadataName ≠ provider_info.packageName then (d, false)
      else if (pyLookup dist.metadataName d).isNone then
        (d ++ [(dist.metadataName, ⟨dist.version, provider_info⟩)], true)
      else (d, true)

/-- Models the loop of `_discover_all_providers_from_packages`: processes
distributions in order, stopping at the first raised exception (which
propagates out of the whole discovery call). -/
def discoverPackagesDict (env : Env) (dists : List Dist)
    (d : List (String × ProviderInfo)) : List (String × ProviderInfo) × Bool :=
  match dists with
  | [] => (d, true)
  | dist :: rest =>
    match processDist env d dist with
    | (d', true) => discoverPackagesDict env rest d'
    | (d', false) => (d', false)

/-- Models the loop of `_add_widgets` on the widget dict alone: a field
whose name does not start with `extra__` is skipped with a warning; a
field name already present (added by another provider) is skipped with a
warning; otherwise the binding is appended.  The stored record carries the
hook class's `__name__` and the owning package. -/
def add_widgets_dict (package_name className : String)
    (ws : List (String × FieldClass))
    (d : List (String × ConnectionFormWidgetInfo)) :
    List (String × ConnectionFormWidgetInfo) :=
  match ws with
  | [] => d
  | (field_name, field) :: rest =>
    if ¬ pyStartsWith field_name "extra__" then
      add_widgets_dict package_name className rest d
    else if (pyLookup field_name d).isSome then
      add_widgets_dict package_name className rest d
    else
      add_widgets_dict package_name className rest
        (d ++ [(field_name, ⟨className, package_name, field⟩)])

/-- Models `_add_widgets` at the manager-state level. -/
def add_widgets (package_name : String) (hc : HookClass)
    (ws : List (String × FieldClass)) (s : MgrState) : MgrState :=
  { s with connection_form_widgets :=
      add_widgets_dict package_name hc.className ws s.connection_form_widgets }

/-- Models `_add_customized_fields`: `getattr(hook_class, "conn_type")`
raises when the attribute is missing (caught, skip); then the document is
validated against the field-behaviour schema (a violation raises, caught,
skip); a connection type already present is skipped with a warning;
otherwise the binding is appended. -/
def add_customized_fields (env : Env) (package_name : String) (hc : HookClass)
    (doc : String) (s : MgrState) : MgrState :=
  match hc.conn_type with
  | none => s
  | some connection_type =>
    if ¬ env.behaviourValid doc then s
    else if (pyLookup connection_type s.field_behaviours).isSome then s
    else { s with field_behaviours := s.field_behaviours ++ [(connection_type, doc)] }

/-- Last step of `_add_hook` (after the `try` block): `_get_attr` the three
required attributes; if any is missing or falsy the hook is not
registered; otherwise `self._hooks_dict[conn_type] = HookInfo(...)`. -/
def finish_insert (hook_class_name provider_package : String) (hc : HookClass)
    (s : MgrState) : MgrState :=
  match hc.conn_type, hc.conn_name_attr, hc.hook_name with
  | some conn_type, some connection_id_attribute_name, some hook_name =>
    if conn_type = "" ∨ connection_id_attribute_name = "" ∨ hook_name = "" then s
    else
      let info : HookInfo :=
        ⟨hook_class_name, connection_id_attribute_name, provider_package, hook_name⟩
      { s with hooks_dict := pyDictInsert conn_type info s.hooks_dict }
  | _, _, _ => s

/-- Rest of `_add_hook` after the widget step: the field-behaviour step
(a raise inside `get_ui_field_behaviour` is caught by the outer handler
and ends the hook's registration), then the final attribute reads and the
hook-table insert. -/
def add_hook_rest (env : Env) (hook_class_name provider_package : String)
    (hc : HookClass) (s : MgrState) : MgrState :=
  match hc.behaviourDecl with
  | some (.error _) => s
  | some (.ok fb) =>
    match fb with
    | some doc =>
      finish_insert hook_class_name provider_package hc
        (add_customized_fields env provider_package hc doc s)
    | none => finish_insert hook_class_name provider_package hc s
  | none => finish_insert hook_class_name provider_package hc s

/-- Models `_add_hook(hook_class_name, provider_package)`: sanity check;
guard comparing the hook class path against the keys of the hook table
(which are connection types); class import (an exception is caught and
ends registration); the widget step — when `get_connection_form_widgets`
is declared on the class itself and returns a truthy dict, any field whose
class is outside `ALLOWED_FIELD_CLASSES` aborts the hook's registration,
otherwise the widgets are added; then the field-behaviour step and the
hook-table insert. -/
def add_hook (env : Env) (hook_class_name provider_package : String)
    (s : MgrState) : MgrState :=
  if ¬ sanity_check env provider_package hook_class_name then s
  else if (pyLookup hook_class_name s.hooks_dict).isSome then s
  else
    match env.importHookClass hook_class_name with
    | none => s
    | some hc =>
      match hc.widgetsDecl with
      | some (.error _) => s
      | some (.ok ws) =>
        if ws = [] then add_hook_rest env hook_class_name provider_package hc s
        else if ws.any (fun w => decide (w.2 ∉ ALLOWED_FIELD_CLASSES)) then s
        else
          add_hook_rest env hook_class_name provider_package hc
            (add_widgets provider_package hc ws s)
      | none => add_hook_rest env hook_class_name provider_package hc s

/-- Models `_discover_hooks`: for every provider, every declared hook
class name is passed to `_add_hook` with the provider's package name. -/
def discover_hooks (env : Env) (s : MgrState) : MgrState :=
  s.provider_dict.foldl
    (fun st entry =>
      entry.2.provider_info.hookClassNames.foldl
        (fun st hook_class_name => add_hook env hook_class_name entry.1 st) st)
    s

/-- Models `_discover_extra_links`. -/
def discover_extra_links (env : Env) (s : MgrState) : MgrState :=
  let out :=
    s.provider_dict.foldl
      (fun acc entry =>
        entry.2.provider_info.extraLinks.foldl
          (fun acc n => if sanity_check env entry.1 n then setAdd n acc else acc) acc)
      s.extra_links
  { s with extra_links := out }

/-- Models `_discover_logging`. -/
def discover_logging (env : Env) (s : MgrState) : MgrState :=
  let out :=
    s.provider_dict.foldl
      (fun acc entry =>
        entry.2.provider_info.loggingNames.foldl
          (fun acc n => if sanity_check env entry.1 n then setAdd n acc else acc) acc)
      s.logging_classes
  { s with logging_classes := out }

/-- Models `_discover_secrets_backends`. -/
def discover_secrets_backends (env : Env) (s : MgrState) : MgrState :=
  let out :=
    s.provider_dict.foldl
      (fun acc entry =>
        entry.2.provider_info.secretsBackendNames.foldl
          (fun acc n => if sanity_check env entry.1 n then setAdd n acc else acc) acc)
      s.secrets_backends
  { s with secrets_backends := out }

/-- Models `_discover_auth_backends`: the sanity check is run on the
module name with `".init_app"` appended. -/
def discover_auth_backends (env : Env) (s : MgrState) : MgrState :=
  let out :=
    s.provider_dict.foldl
      (fun acc entry =>
        entry.2.provider_info.authBackendNames.foldl
          (fun acc n =>
            if sanity_check env entry.1 (n ++ ".init_app") then setAdd n acc else acc)
          acc)
      s.auth_backends
  { s with auth_backends := out }

/-- Models the `provider_info_cache(cache_name)` decorator: if the flag
is already set, return at once without running the body; otherwise run
the body and, when it returns normally, set the flag.  A body that raises
(`false`) propagates the exception and leaves the flag unset. -/
def provider_info_cache_run (cache_name : String)
    (body : Env → MgrState → MgrState × Bool) (env : Env) (s : MgrState) :
    MgrState × Bool :=
  if cache_name ∈ s.cache then (s, true)
  else
    match body env s with
    | (s1, true) => ({ s1 with cache := cache_name :: s1.cache }, true)
    | (s1, false) => (s1, false)

/-- Body of `initialize_providers_list`: the local-source scan, then the
installed-package scan, then the sort of the provider table.  When the
package scan raises, the partially-filled table stays and the exception
propagates (`false`).  `list_run_count` counts entries into this body
(the call-counter instrumentation named by the specification's testable
property 2). -/
def list_body (env : Env) (s : MgrState) : MgrState × Bool :=
  let s0 := { s with list_run_count := s.list_run_count + 1 }
  let d1 := discoverLocalDict env s0.provider_dict
  match discoverPackagesDict env env.dists d1 with
  | (d2, true) => ({ s0 with provider_dict := sortDict d2 }, true)
  | (d2, false) => ({ s0 with provider_dict := d2 }, false)

/-- Models `initialize_providers_list` (decorator applied to the body). -/
def init_providers_list (env : Env) (s : MgrState) : MgrState × Bool :=
  provider_info_cache_run "list" list_body env s

/-- Hook discovery followed by the three sorts at the end of
`initialize_providers_hooks`. -/
def discover_hooks_and_sort (env : Env) (s : MgrState) : MgrState :=
  let s2 := discover_hooks env s
  { s2 with
      hooks_dict := sortDict s2.hooks_dict,
      connection_form_widgets := sortDict s2.connection_form_widgets,
      field_behaviours := sortDict s2.field_behaviours }

/-- Body of `initialize_providers_hooks`: ensure the `list` category
(its exception propagates), then discover hooks and sort the three
tables. -/
def hooks_body (env : Env) (s : MgrState) : MgrState × Bool :=
  match init_providers_list env s with
  | (s1, false) => (s1, false)
  | (s1, true) => (discover_hooks_and_sort env s1, true)

/-- Models `initialize_providers_hooks`. -/
def init_providers_hooks (env : Env) (s : MgrState) : MgrState × Bool :=
  provider_info_cache_run "hooks" hooks_body env s

/-- Body of `initialize_providers_extra_links`. -/
def extra_links_body (env : Env) (s : MgrState) : MgrState × Bool :=
  match init_providers_list env s with
  | (s1, false) => (s1, false)
  | (s1, true) => (discover_extra_links env s1, true)

/-- Models `initialize_providers_extra_links`. -/
def init_providers_extra_links (env : Env) (s : MgrState) : MgrState × Bool :=
  provider_info_cache_run "extra_links" extra_links_body env s

/-- Body of `initialize_providers_logging`. -/
def logging_body (env : Env) (s : MgrState) : MgrState × Bool :=
  match init_providers_list env s with
  | (s1, false) => (s1, false)
  | (s1, true) => (discover_logging env s1, true)

/-- Models `initialize_providers_logging`. -/
def init_providers_logging (env : Env) (s : MgrState) : MgrState × Bool :=
  provider_info_cache_run "logging" logging_body env s

/-- Body of `initialize_providers_secrets_backends`. -/
def secrets_backends_body (env : Env) (s : MgrState) : MgrState × Bool :=
  match init_providers_list env s with
  | (s1, false) => (s1, false)
  | (s1, true) => (discover_secrets_backends env s1, true)

/-- Models `initialize_providers_secrets_backends`. -/
def init_providers_secrets_backends (env : Env) (s : MgrState) : MgrState × Bool :=
  provider_info_cache_run "secrets_backends" secrets_backends_body env s

/-- Body of `initialize_providers_auth_backends`. -/
def auth_backends_body (env : Env) (s : MgrState) : MgrState × Bool :=
  match init_providers_list env s with
  | (s1, false) => (s1, false)
  | (s1, true) => (discover_auth_backends env s1, true)

/-- Models `initialize_providers_auth_backends`. -/
def init_providers_auth_backends (env : Env) (s : MgrState) : MgrState × Bool :=
  provider_info_cache_run "auth_backends" auth_backends_body env s

/-- The eight read-surface accessors of `ProvidersManager`. -/
inductive Accessor : Type
  | providers
  | hooks
  | connectionFormWidgets
  | fieldBehaviours
  | extraLinks
  | loggingClasses
  | secretsBackendClasses
  | authBackendModules
deriving DecidableEq, Repr

/-- Value returned by an accessor. -/
inductive View : Type
  | providersV (d : List (String × ProviderInfo))
  | hooksV (d : List (String × HookInfo))
  | widgetsV (d : List (String × ConnectionFormWidgetInfo))
  | behavioursV (d : List (String × String))
  | namesV (l : List String)

/-- Models one read-surface access: it runs the minimal initialization
chain, then returns the table (the dict accessors return the table
object, the set accessors return `sorted(set)`), or propagates the
discovery exception. -/
def run_access (env : Env) (a : Accessor) (s : MgrState) :
    MgrState × Except String View :=
  match a with
  | .providers =>
    match init_providers_list env s with
    | (s', true) => (s', .ok (.providersV s'.provider_dict))
    | (s', false) => (s', .error "discovery raised")
  | .hooks =>
    match init_providers_hooks env s with
    | (s', true) => (s', .ok (.hooksV s'.hooks_dict))
    | (s', false) => (s', .error "discovery raised")
  | .connectionFormWidgets =>
    match init_providers_hooks env s with
    | (s', true) => (s', .ok (.widgetsV s'.connection_form_widgets))
    | (s', false) => (s', .error "discovery raised")
  | .fieldBehaviours =>
    match init_providers_hooks env s with
    | (s', true) => (s', .ok (.behavioursV s'.field_behaviours))
    | (s', false) => (s', .error "discovery raised")
  | .extraLinks =>
    match init_providers_extra_links env s with
    | (s', true) => (s', .ok (.namesV (sortNames s'.extra_links)))
    | (s', false) => (s', .error "discovery raised")
  | .loggingClasses =>
    match init_providers_logging env s with
    | (s', true) => (s', .ok (.namesV (sortNames s'.logging_classes)))
    | (s', false) => (s', .error "discovery raised")
  | .secretsBackendClasses =>
    match init_providers_secrets_backends env s with
    | (s', true) => (s', .ok (.namesV (sortNames s'.secrets_backends)))
    | (s', false) => (s', .error "discovery raised")
  | .authBackendModules =>
    match init_providers_auth_backends env s with
    | (s', true) => (s', .ok (.namesV (sortNames s'.auth_backends)))
    | (s', false) => (s', .error "discovery raised")

/-- State after a sequence of read-surface accesses. -/
def runSeq (env : Env) (accs : List Accessor) (s : MgrState) : MgrState :=
  accs.foldl (fun s a => (run_access env a s).1) s

/-- A table holds each key at most once. -/
def AtMostOnce {α : Type} (d : List (String × α)) : Prop :=
  ∀ k, countKey k d ≤ 1

/-- The sortedness invariant maintained by the lazy-initialization layer:
once a category's flag is set, the tables that category's procedure sorted
are sorted. -/
def SortInv (s : MgrState) : Prop :=
  ("list" ∈ s.cache → List.Sorted keyLe s.provider_dict) ∧
  ("hooks" ∈ s.cache →
    List.Sorted keyLe s.hooks_dict ∧
    List.Sorted keyLe s.connection_form_widgets ∧
    List.Sorted keyLe s.field_behaviours)

/-- The parts of the manager state that hook discovery and the capability
extractors never touch: the flag dict, the `list` call counter, and the
provider table. -/
def frame3 (s : MgrState) : List String × Nat × List (String × ProviderInfo) :=
  (s.cache, s.list_run_count, s.provider_dict)

/-- The enumeration of a returned view is in lexicographic key order. -/
def viewSorted : View → Prop
  | .providersV d => List.Sorted keyLe d
  | .hooksV d => List.Sorted keyLe d
  | .widgetsV d => List.Sorted keyLe d
  | .behavioursV d => List.Sorted keyLe d
  | .namesV l => List.Sorted (fun a b : String => a ≤ b) l

/-! Concrete fixtures used by counterexamples and witnesses. -/

/-- Manifest of the in-source provider in directory `a`. -/
def mA : Manifest := ⟨"apache-airflow-providers-a", ["1.0"], [], [], [], [], []⟩

/-- Manifest of the nested in-source provider in directory `a/sub`. -/
def mSub : Manifest := ⟨"apache-airflow-providers-a-sub", ["2.0"], [], [], [], [], []⟩

/-- In-source root for the non-descent scenario: the walk root holds `a`,
which holds both a `provider.yaml` and a child `sub` with its own
`provider.yaml`. -/
def rootC6 : FTree :=
  FTree.node "providers" none
    [FTree.node "a" (some (.ok mA)) [FTree.node "sub" (some (.ok mSub)) []]]

/-- Environment for the non-descent scenario: every manifest valid, no
installed distributions. -/
def envC6 : Env :=
  { schemaValid := fun _ => true, behaviourValid := fun _ => true,
    importOk := fun _ => true, importHookClass := fun _ => none,
    hasProvidersPackage := true, localRoots := [rootC6], dists := [] }

/-- Installed distribution declaring the same package name as the
in-source provider `a`, with a different version and manifest version. -/
def mDup : Manifest := ⟨"apache-airflow-providers-a", ["9.9"], [], [], [], [], []⟩

/-- Environment with the same package name declared both in-source and as
an installed distribution. -/
def envC3 : Env :=
  { schemaValid := fun _ => true, behaviourValid := fun _ => true,
    importOk := fun _ => true, importHookClass := fun _ => none,
    hasProvidersPackage := true,
    localRoots := [FTree.node "providers" none [FTree.node "a" (some (.ok mA)) []]],
    dists := [⟨"apache-airflow-providers-a", "9.9", .ok mDup⟩] }

/-- Expected manager state after `initialize_providers_list` runs in
`envC3`: the in-source record for `apache-airflow-providers-a` wins, the
flag is set, and the body ran once. -/
def sC3 : MgrState :=
  { cache := ["list"],
    provider_dict := [("apache-airflow-providers-a", ProviderInfo.mk "1.0" mA)],
    hooks_dict := [], connection_form_widgets := [], field_behaviours := [],
    extra_links := [], logging_classes := [], secrets_backends := [],
    auth_backends := [], list_run_count := 1 }

/-- First hook class of the duplicate-connection-type scenario. -/
def hcA : HookClass := ⟨"HookA", none, none, some "foo", some "cid", some "A"⟩

/-- Second hook class of the duplicate-connection-type scenario: a
different class, same connection type `"foo"`. -/
def hcB : HookClass := ⟨"HookB", none, none, some "foo", some "cid2", some "B"⟩

/-- Manifest of the provider declaring `HookA`. -/
def mH1 : Manifest := ⟨"p1", ["1.0"], ["pkg1.HookA"], [], [], [], []⟩

/-- Manifest of the provider declaring `HookB`. -/
def mH2 : Manifest := ⟨"p2", ["1.0"], ["pkg2.HookB"], [], [], [], []⟩

/-- Environment for the duplicate-connection-type scenario. -/
def envC1 : Env :=
  { schemaValid := fun _ => true, behaviourValid := fun _ => true,
    importOk := fun _ => true,
    importHookClass := fun s =>
      if s = "pkg1.HookA" then some hcA
      else if s = "pkg2.HookB" then some hcB else none,
    hasProvidersPackage := false, localRoots := [], dists := [] }

/-- Manager state whose provider table holds the two providers of the
duplicate-connection-type scenario, `p1` processed first. -/
def stateC1 : MgrState :=
  { initState with provider_dict := [("p1", ⟨"1.0", mH1⟩), ("p2", ⟨"1.0", mH2⟩)] }

/-- Hook class declaring a widget set with a disallowed field class, plus
a valid field-behaviour document and all three required attributes. -/
def hcBad : HookClass :=
  ⟨"Bad", some (.ok [("extra__x__y", .Other "UnsupportedField")]),
   some (.ok (some "doc")), some "bar", some "cid", some "Bad"⟩

/-- Environment for the disallowed-widget scenario. -/
def envC2 : Env :=
  { schemaValid := fun _ => true, behaviourValid := fun _ => true,
    importOk := fun _ => true,
    importHookClass := fun s => if s = "pkg.Bad" then some hcBad else none,
    hasProvidersPackage := false, localRoots := [], dists := [] }

/-- Manifest whose declared `package-name` matches its distribution. -/
def mP : Manifest := ⟨"p", ["1.0"], [], [], [], [], []⟩

/-- Environment for the schema-violation-aborts scenario: one installed
distribution, names aligned, but the manifest fails schema validation. -/
def envC4 : Env :=
  { schemaValid := fun _ => false, behaviourValid := fun _ => true,
    importOk := fun _ => true, importHookClass := fun _ => none,
    hasProvidersPackage := false, localRoots := [],
    dists := [⟨"p", "1.0", .ok mP⟩] }

/-- Environment with no providers at all, for cache/order witnesses. -/
def envEmpty : Env :=
  { schemaValid := fun _ => true, behaviourValid := fun _ => true,
    importOk := fun _ => true, importHookClass := fun _ => none,
    hasProvidersPackage := false, localRoots := [], dists := [] }

/-! Basic lemmas about the dict model. -/

theorem pyLookup_append_left {α : Type} {k : String} {v : α}
    {d e : List (String × α)} (h : pyLookup k d = some v) :
    pyLookup k (d ++ e) = some v := by
  induction d with
  | nil => simp [pyLookup] at h
  | cons hd tl ih =>
    obtain ⟨k', v'⟩ := hd
    by_cases hk : k' = k
    · subst hk
      simpa [pyLookup] using h
    · simp only [pyLookup, if_neg hk] at h
      simpa [pyLookup, if_neg hk] using ih h

theorem countKey_append {α : Type} (k : String) (d e : List (String × α)) :
    countKey k (d ++ e) = countKey k d + countKey k e := by
  simp [countKey, List.filter_append]

theorem countKey_nil {α : Type} (k : String) : countKey k ([] : List (String × α)) = 0 := rfl

theorem countKey_eq_zero {α : Type} {k : String} {d : List (String × α)}
    (h : pyLookup k d = none) : countKey k d = 0 := by
  induction d with
  | nil => rfl
  | cons hd tl ih =>
    obtain ⟨k', v'⟩ := hd
    by_cases hk : k' = k
    · simp [pyLookup, hk] at h
    · simp only [pyLookup, if_neg hk] at h
      simpa [countKey, List.filter_cons, hk] using ih h

theorem countKey_pos {α : Type} {k : String} {v : α} {d : List (String × α)}
    (h : pyLookup k d = some v) : 1 ≤ countKey k d := by
  induction d with
  | nil => simp [pyLookup] at h
  | cons hd tl ih =>
    obtain ⟨k', v'⟩ := hd
    by_cases hk : k' = k
    · simp [countKey, List.filter_cons, hk]
    · simp only [pyLookup, if_neg hk] at h
      simpa [countKey, List.filter_cons, hk] using ih h

theorem countKey_singleton_ne {α : Type} {k k' : String} (v : α) (h : k' ≠ k) :
    countKey k [(k', v)] = 0 := by
  simp [countKey, List.filter_cons, h]

theorem pyLookup_some_mem {α : Type} {k : String} {v : α} {d : List (String × α)}
    (h : pyLookup k d = some v) : (k, v) ∈ d := by
  induction d with
  | nil => simp [pyLookup] at h
  | cons hd tl ih =>
    obtain ⟨k', v'⟩ := hd
    by_cases hk : k' = k
    · subst hk
      simp only [pyLookup, if_true, Option.some.injEq] at h
      subst h
      exact List.mem_cons_self _ _
    · simp only [pyLookup, if_neg hk] at h
      exact List.mem_cons_of_mem _ (ih h)

/-! Claim C9. -/

/-- C9: in the installed-package scan, a distribution whose name is
already present in the provider table is skipped before its entry-point
callable is invoked and before its manifest is validated or name-checked:
processing it succeeds and leaves the table unchanged for every possible
load outcome (including a raising entry point, a schema-invalid manifest
or a mismatching `package-name`), under every validator. -/
theorem c9_duplicate_skipped_before_load (env : Env)
    (d : List (String × ProviderInfo)) (name ver : String)
    (load : Except Unit Manifest)
    (h : (pyLookup name d).isSome = true) :
    processDist env d ⟨name, ver, load⟩ = (d, true) := by
  simp [processDist, h]

/-- Witness for C9: a duplicate distribution whose entry point would
raise, in an environment whose validator rejects everything, is still
skipped cleanly. -/
theorem c9_witness :
    processDist envC4 [("p", ProviderInfo.mk "1.0" mP)] ⟨"p", "2.0", .error ()⟩
      = ([("p", ProviderInfo.mk "1.0" mP)], true) :=
  c9_duplicate_skipped_before_load envC4 [("p", ProviderInfo.mk "1.0" mP)]
    "p" "2.0" (.error ()) rfl

/-! Claim C10. -/

/-- C10: a provider discovered from an installed distribution stores the
distribution's own metadata version (`dist.version`), whatever the
manifest's `versions` list holds; a provider discovered from an in-source
descriptor stores `versions[0]` of the manifest. -/
theorem c10_version_source :
    (∀ (env : Env) (d : List (String × ProviderInfo)) (name ver : String)
      (m : Manifest),
      pyLookup name d = none → env.schemaValid m = true → name = m.packageName →
      processDist env d ⟨name, ver, .ok m⟩ = (d ++ [(name, ProviderInfo.mk ver m)], true)) ∧
    (∀ (env : Env) (package_name : String) (m : Manifest) (v : String)
      (vs : List String) (d : List (String × ProviderInfo)),
      env.schemaValid m = true → m.versions = v :: vs → pyLookup package_name d = none →
      addProviderFromFile env package_name (.ok m) d = d ++ [(package_name, ProviderInfo.mk v m)]) := by
  constructor
  · intro env d name ver m h1 h2 h3
    subst h3
    simp [processDist, h1, h2]
  · intro env package_name m v vs d h1 h2 h3
    simp [addProviderFromFile, h1, h2, h3]

/-- Witness for C10: with a manifest declaring `versions = ["1.0"]`, the
installed-package path stores the metadata version `"2.0"` while the
in-source path stores `"1.0"`. -/
theorem c10_witness :
    processDist envC6 [] ⟨"apache-airflow-providers-a", "2.0", .ok mA⟩
      = ([("apache-airflow-providers-a", ProviderInfo.mk "2.0" mA)], true) ∧
    addProviderFromFile envC6 "apache-airflow-providers-a" (.ok mA) []
      = [("apache-airflow-providers-a", ProviderInfo.mk "1.0" mA)] :=
  ⟨c10_version_source.1 envC6 [] "apache-airflow-providers-a" "2.0" mA rfl rfl rfl,
   c10_version_source.2 envC6 "apache-airflow-providers-a" mA "1.0" [] [] rfl rfl rfl⟩

/-! Claim C4. -/

/-- Counterexample to C4: one installed distribution whose declared name
`"p"` equals its manifest's `package-name` (so the name-mismatch condition
does not hold), whose manifest fails schema validation.  The claim says a
schema violation is logged and only that provider is skipped; instead the
whole discovery call aborts (`false` = the exception propagated). -/
theorem c4_counterexample :
    (init_providers_list envC4 initState).2 = false ∧
    envC4.dists = [⟨"p", "1.0", .ok mP⟩] ∧ mP.packageName = "p" :=
  ⟨rfl, rfl, rfl⟩

/-- C4 as amended: in the installed-package scan the name mismatch is
fatal, but so are a schema violation and a raising entry point — each
aborts the whole loop, which stops at the first failing distribution;
only the in-source scan treats parse errors and schema violations as
log-and-skip, and an installed duplicate name is skipped silently before
loading. -/
theorem c4_fatal_conditions :
    (∀ (env : Env) (d : List (String × ProviderInfo)) (name ver : String)
      (m : Manifest),
      pyLookup name d = none → env.schemaValid m = true → name ≠ m.packageName →
      processDist env d ⟨name, ver, .ok m⟩ = (d, false)) ∧
    (∀ (env : Env) (d : List (String × ProviderInfo)) (name ver : String)
      (m : Manifest),
      pyLookup name d = none → env.schemaValid m = false →
      processDist env d ⟨name, ver, .ok m⟩ = (d, false)) ∧
    (∀ (env : Env) (d : List (String × ProviderInfo)) (name ver : String),
      pyLookup name d = none →
      processDist env d ⟨name, ver, .error ()⟩ = (d, false)) ∧
    (∀ (env : Env) (d d' : List (String × ProviderInfo)) (dist : Dist)
      (rest : List Dist),
      processDist env d dist = (d', false) →
      discoverPackagesDict env (dist :: rest) d = (d', false)) ∧
    (∀ (env : Env) (package_name : String) (d : List (String × ProviderInfo)),
      addProviderFromFile env package_name (.error ()) d = d) ∧
    (∀ (env : Env) (package_name : String) (m : Manifest)
      (d : List (String × ProviderInfo)),
      env.schemaValid m = false → addProviderFromFile env package_name (.ok m) d = d) := by
  refine ⟨?_, ?_, ?_, ?_, ?_, ?_⟩
  · intro env d name ver m h1 h2 h3
    simp [processDist, h1, h2, h3]
  · intro env d name ver m h1 h2
    simp [processDist, h1, h2]
  · intro env d name ver h1
    simp [processDist, h1]
  · intro env d d' dist rest h
    simp [discoverPackagesDict, h]
  · intro env package_name d
    simp [addProviderFromFile]
  · intro env package_name m d h
    simp [addProviderFromFile, h]

/-- Witness for C4 (amended): the name mismatch aborts; the concrete
schema-violating distribution of `envC4` aborts the whole loop; an
in-source parse failure is skipped. -/
theorem c4_witness :
    processDist envC6 [] ⟨"some-other-name", "1.0", .ok mA⟩ = ([], false) ∧
    discoverPackagesDict envC4 [⟨"p", "1.0", .ok mP⟩] [] = ([], false) ∧
    addProviderFromFile envC6 "apache-airflow-providers-a" (.error ()) [] = [] :=
  ⟨c4_fatal_conditions.1 envC6 [] "some-other-name" "1.0" mA rfl rfl (by decide),
   c4_fatal_conditions.2.2.2.1 envC4 [] [] ⟨"p", "1.0", .ok mP⟩ []
     (c4_fatal_conditions.2.1 envC4 [] "p" "1.0" mP rfl rfl),
   c4_fatal_conditions.2.2.2.2.1 envC6 "apache-airflow-providers-a" []⟩

/-! Claim C2. -/

/-- Counterexample to C2: the hook class `hcBad` declares one widget of a
disallowed field class, a valid field-behaviour document, and all three
required hook attributes.  The claim says only the widget batch is
dropped and the field-behaviour document and the hook-table entry are
still registered; instead `_add_hook` returns immediately, so both tables
stay empty. -/
theorem c2_counterexample :
    (add_hook envC2 "pkg.Bad" "p" initState).hooks_dict = [] ∧
    (add_hook envC2 "pkg.Bad" "p" initState).field_behaviours = [] ∧
    truthy hcBad.conn_type = true ∧ truthy hcBad.conn_name_attr = true ∧
    truthy hcBad.hook_name = true ∧
    hcBad.behaviourDecl = some (.ok (some "doc")) ∧
    envC2.behaviourValid "doc" = true :=
  ⟨rfl, rfl, rfl, rfl, rfl, rfl, rfl⟩

/-- C2 as amended: when a hook's declared widget set contains a field
with a descriptor kind outside the allow-list, the entire registration of
that hook is aborted — the widget batch is omitted, the field-behaviour
document is not registered, and the hook is not inserted into the hook
table: the manager state is returned unchanged.  Only other declarations
(other hooks) are unaffected. -/
theorem c2_disallowed_widget_aborts_hook (env : Env) (n p : String)
    (s : MgrState) (hc : HookClass) (ws : List (String × FieldClass))
    (hsan : sanity_check env p n = true)
    (hguard : pyLookup n s.hooks_dict = none)
    (himp : env.importHookClass n = some hc)
    (hwd : hc.widgetsDecl = some (.ok ws))
    (hbad : ∃ w ∈ ws, w.2 ∉ ALLOWED_FIELD_CLASSES) :
    add_hook env n p s = s := by
  have hne : ws ≠ [] := by
    rintro rfl
    simp at hbad
  have hany : ws.any (fun w => decide (w.2 ∉ ALLOWED_FIELD_CLASSES)) = true := by
    rw [List.any_eq_true]
    obtain ⟨w, hw, hmem⟩ := hbad
    exact ⟨w, hw, by simpa using hmem⟩
  unfold add_hook
  rw [hsan, hguard, himp]
  simp only [eq_self_iff_true, not_true, Option.isSome_none, Bool.false_eq_true, if_false,
    ite_true, ite_false]
  rw [hwd]
  split <;> simp_all

/-- Witness for C2 (amended): the concrete disallowed-widget hook leaves
the whole manager state unchanged. -/
theorem c2_witness : add_hook envC2 "pkg.Bad" "p" initState = initState :=
  c2_disallowed_widget_aborts_hook envC2 "pkg.Bad" "p" initState hcBad
    [("extra__x__y", .Other "UnsupportedField")] rfl rfl rfl rfl
    ⟨("extra__x__y", .Other "UnsupportedField"), by simp, by decide⟩

/-! Claim C7. -/

/-- C7: with every declared field class in the allow-list, an
unnamespaced widget field is skipped individually — the outcome of the
widget loop is the outcome on the sublist of properly namespaced fields,
so siblings are unaffected; a namespaced field not yet registered is
registered; in particular the set
`{extra__svc__id: StringField, token: StringField}` registers exactly
`extra__svc__id`. -/
theorem c7_unnamespaced_field_skipped_individually :
    (∀ (package_name className : String) (ws : List (String × FieldClass))
      (d : List (String × ConnectionFormWidgetInfo)),
      add_widgets_dict package_name className ws d
        = add_widgets_dict package_name className
            (ws.filter (fun w => pyStartsWith w.1 "extra__")) d) ∧
    (∀ (package_name className fn : String) (f : FieldClass)
      (d : List (String × ConnectionFormWidgetInfo)),
      pyStartsWith fn "extra__" = true → pyLookup fn d = none →
      add_widgets_dict package_name className [(fn, f)] d
        = d ++ [(fn, ConnectionFormWidgetInfo.mk className package_name f)]) ∧
    add_widgets_dict "p" "MyHook"
        [("extra__svc__id", .StringField), ("token", .StringField)] []
      = [("extra__svc__id", ConnectionFormWidgetInfo.mk "MyHook" "p" .StringField)] := by
  refine ⟨?_, ?_, by rfl⟩
  · intro package_name className ws
    induction ws with
    | nil => intro d; rfl
    | cons w rest ih =>
      intro d
      obtain ⟨fn, f⟩ := w
      by_cases h : pyStartsWith fn "extra__"
      · rw [List.filter_cons_of_pos (by simpa using h)]
        by_cases hl : (pyLookup fn d).isSome
        · simp [add_widgets_dict, h, hl, ih]
        · simp [add_widgets_dict, h, hl, ih]
      · rw [List.filter_cons_of_neg (by simpa using h)]
        simp [add_widgets_dict, h, ih]
  · intro package_name className fn f d h1 h2
    simp [add_widgets_dict, h1, h2]

/-- Witness for C7: a fresh namespaced field is registered. -/
theorem c7_witness :
    add_widgets_dict "pk" "H" [("extra__a__b", .BooleanField)] []
      = [("extra__a__b", ConnectionFormWidgetInfo.mk "H" "pk" .BooleanField)] :=
  c7_unnamespaced_field_skipped_individually.2.1 "pk" "H" "extra__a__b"
    .BooleanField [] (by rfl) rfl

/-! Claim C6. -/

/-- C6: a directory holding the descriptor file is one provider — its
children are never visited (the result does not depend on them), its
package name is the fixed string followed by the hyphen-joined relative
path, and with a valid parsed manifest and a fresh name it contributes
exactly one table entry; in particular the concrete root with
`a/provider.yaml` and `a/sub/provider.yaml` yields exactly one provider,
`apache-airflow-providers-a`, and none derived from `a/sub`. -/
theorem c6_no_descent_into_provider_dirs :
    (∀ (env : Env) (relParts : List String) (name : String)
      (content : Except Unit Manifest) (c1 c2 : List FTree)
      (d : List (String × ProviderInfo)),
      walkTree env relParts (FTree.node name (some content) c1) d
        = walkTree env relParts (FTree.node name (some content) c2) d) ∧
    (∀ (env : Env) (relParts : List String) (name : String)
      (children : List FTree) (m : Manifest) (v : String) (vs : List String)
      (d : List (String × ProviderInfo)),
      env.schemaValid m = true → m.versions = v :: vs →
      pyLookup (pkgNameOf relParts) d = none →
      walkTree env relParts (FTree.node name (some (.ok m)) children) d
        = d ++ [(pkgNameOf relParts, ProviderInfo.mk v m)]) ∧
    discoverLocalDict envC6 []
      = [("apache-airflow-providers-a", ProviderInfo.mk "1.0" mA)] := by
  refine ⟨?_, ?_, ?_⟩
  · intro env relParts name content c1 c2 d
    rw [walkTree, walkTree]
  · intro env relParts name children m v vs d h1 h2 h3
    rw [walkTree]
    simp [addProviderFromFile, h1, h2, h3]
  · rw [discoverLocalDict]
    simp only [envC6, rootC6]
    rw [List.foldl_cons, List.foldl_nil, walkTree]
    simp only [walkF]
    decide

/-- Witness for C6: the general registration equation applied at the
concrete directory `a` of the concrete root. -/
theorem c6_witness :
    walkTree envC6 ["a"] (FTree.node "a" (some (.ok mA))
        [FTree.node "sub" (some (.ok mSub)) []]) []
      = [("apache-airflow-providers-a", ProviderInfo.mk "1.0" mA)] :=
  c6_no_descent_into_provider_dirs.2.1 envC6 ["a"] "a"
    [FTree.node "sub" (some (.ok mSub)) []] mA "1.0" [] [] rfl rfl rfl

/-! Claim C1. -/

/-- A hook class with no declared widgets or field behaviours and all
three required attributes present and non-empty is registered under its
connection type by assignment into the hook table. -/
theorem add_hook_simple (env : Env) (n p : String) (s : MgrState)
    (hc : HookClass) (ct cia hn : String)
    (hsan : sanity_check env p n = true)
    (hguard : pyLookup n s.hooks_dict = none)
    (himp : env.importHookClass n = some hc)
    (hwd : hc.widgetsDecl = none) (hbd : hc.behaviourDecl = none)
    (hct : hc.conn_type = some ct) (hcia : hc.conn_name_attr = some cia)
    (hhn : hc.hook_name = some hn)
    (h1 : ct ≠ "") (h2 : cia ≠ "") (h3 : hn ≠ "") :
    add_hook env n p s
      = { s with hooks_dict := pyDictInsert ct (HookInfo.mk n cia p hn) s.hooks_dict } := by
  unfold add_hook
  rw [hsan, hguard, himp]
  simp only [eq_self_iff_true, not_true, Option.isSome_none, Bool.false_eq_true, if_false,
    ite_true, ite_false]
  rw [hwd]
  unfold add_hook_rest
  rw [hbd]
  unfold finish_insert
  rw [hct, hcia, hhn]
  simp [h1, h2, h3]

/-- Counterexample to C1: providers `p1` and `p2` declare the distinct
hook classes `pkg1.HookA` and `pkg2.HookB`, both with connection-type
`"foo"`; `p1` is processed first.  The claim says the `"foo"` record is
`HookA`'s and the later duplicate is dropped; instead the duplicate guard
compares the class path against connection-type keys (it never fires
here), and the later registration overwrites: the `"foo"` record is
`HookB`'s. -/
theorem c1_counterexample :
    pyLookup "foo" (discover_hooks envC1 stateC1).hooks_dict
      = some (HookInfo.mk "pkg2.HookB" "cid2" "p2" "B") ∧
    HookInfo.mk "pkg2.HookB" "cid2" "p2" "B" ≠ HookInfo.mk "pkg1.HookA" "cid" "p1" "A" :=
  ⟨rfl, by decide⟩

/-- C1 as amended: for two providers declaring distinct hook classes for
the same connection-type (the class paths distinct from that
connection-type string, as dotted paths always are), the hook table after
extraction contains exactly one record keyed by that connection-type, and
it is the record of whichever declaration was processed **last**: the
guard checks the class path against the table's connection-type keys, so
it does not fire, and the assignment overwrites the earlier record. -/
theorem c1_hook_conn_type_last_wins (env : Env) (s : MgrState)
    (p1 p2 v1 v2 n1 n2 ct cia1 cia2 hn1 hn2 : String)
    (m1 m2 : Manifest) (hc1 hc2 : HookClass)
    (hpd : s.provider_dict = [(p1, ⟨v1, m1⟩), (p2, ⟨v2, m2⟩)])
    (hm1 : m1.hookClassNames = [n1]) (hm2 : m2.hookClassNames = [n2])
    (hsan1 : sanity_check env p1 n1 = true) (hsan2 : sanity_check env p2 n2 = true)
    (himp1 : env.importHookClass n1 = some hc1)
    (himp2 : env.importHookClass n2 = some hc2)
    (hw1 : hc1.widgetsDecl = none) (hb1 : hc1.behaviourDecl = none)
    (hw2 : hc2.widgetsDecl = none) (hb2 : hc2.behaviourDecl = none)
    (hct1 : hc1.conn_type = some ct) (hca1 : hc1.conn_name_attr = some cia1)
    (hhn1 : hc1.hook_name = some hn1)
    (hct2 : hc2.conn_type = some ct) (hca2 : hc2.conn_name_attr = some cia2)
    (hhn2 : hc2.hook_name = some hn2)
    (hne1 : ct ≠ "") (hne2 : cia1 ≠ "") (hne3 : hn1 ≠ "")
    (hne4 : cia2 ≠ "") (hne5 : hn2 ≠ "")
    (hempty : s.hooks_dict = []) (hx : n2 ≠ ct) :
    pyLookup ct (discover_hooks env s).hooks_dict
      = some (HookInfo.mk n2 cia2 p2 hn2) ∧
    countKey ct (discover_hooks env s).hooks_dict = 1 := by
  have hstep : discover_hooks env s = add_hook env n2 p2 (add_hook env n1 p1 s) := by
    rw [discover_hooks, hpd]
    simp [hm1, hm2]
  have hfirst : add_hook env n1 p1 s
      = { s with hooks_dict := pyDictInsert ct (HookInfo.mk n1 cia1 p1 hn1) s.hooks_dict } :=
    add_hook_simple env n1 p1 s hc1 ct cia1 hn1 hsan1 (by rw [hempty]; rfl) himp1
      hw1 hb1 hct1 hca1 hhn1 hne1 hne2 hne3
  have hmid : (add_hook env n1 p1 s).hooks_dict = [(ct, HookInfo.mk n1 cia1 p1 hn1)] := by
    rw [hfirst, hempty]
    rfl
  have hsecond : add_hook env n2 p2 (add_hook env n1 p1 s)
      = { add_hook env n1 p1 s with
            hooks_dict := pyDictInsert ct (HookInfo.mk n2 cia2 p2 hn2)
              (add_hook env n1 p1 s).hooks_dict } :=
    add_hook_simple env n2 p2 (add_hook env n1 p1 s) hc2 ct cia2 hn2 hsan2
      (by rw [hmid]; simp [pyLookup, Ne.symm hx]) himp2 hw2 hb2 hct2 hca2 hhn2
      hne1 hne4 hne5
  rw [hstep, hsecond]
  simp only [hmid]
  constructor
  · simp [pyDictInsert, pyLookup]
  · simp [pyDictInsert, countKey, List.filter]

/-- Witness for C1 (amended): the concrete two-provider scenario leaves
exactly the later record under `"foo"`. -/
theorem c1_witness :
    pyLookup "foo" (discover_hooks envC1 stateC1).hooks_dict
      = some (HookInfo.mk "pkg2.HookB" "cid2" "p2" "B") ∧
    countKey "foo" (discover_hooks envC1 stateC1).hooks_dict = 1 :=
  c1_hook_conn_type_last_wins envC1 stateC1 "p1" "p2" "1.0" "1.0"
    "pkg1.HookA" "pkg2.HookB" "foo" "cid" "cid2" "A" "B" mH1 mH2 hcA hcB
    rfl rfl rfl rfl rfl rfl rfl rfl rfl rfl rfl rfl rfl rfl rfl rfl rfl
    (by decide) (by decide) (by decide) (by decide) (by decide)
    rfl (by decide)

/-! Claim C3. -/

theorem addProviderFromFile_atMostOnce (env : Env) (package_name : String)
    (content : Except Unit Manifest) (d : List (String × ProviderInfo))
    (h : AtMostOnce d) : AtMostOnce (addProviderFromFile env package_name content d) := by
  unfold addProviderFromFile
  cases content with
  | error u => exact h
  | ok m =>
    by_cases hv : env.schemaValid m
    · simp only [hv, not_true, if_false, ite_false, ite_true, Bool.not_eq_true]
      cases hvs : m.versions with
      | nil => simpa using h
      | cons v vs =>
        simp only []
        by_cases hl : (pyLookup package_name d).isNone
        · have hnone : pyLookup package_name d = none := Option.isNone_iff_eq_none.mp hl
          intro k
          simp only [hl, ite_true, if_pos]
          rw [countKey_append]
          by_cases hk : k = package_name
          · subst hk
            rw [countKey_eq_zero hnone]
            simp [countKey, List.filter]
          · rw [countKey_singleton_ne _ (fun he => hk he.symm)]
            simpa using h k
        · simpa [hl] using h
    · simpa [hv] using h

theorem walkF_atMostOnce (env : Env) (relParts : List String) (ts : List FTree)
    (d : List (String × ProviderInfo)) :
    AtMostOnce d → AtMostOnce (walkF env relParts ts d) := by
  induction relParts, ts, d using walkF.induct env with
  | case1 relParts d =>
    intro h
    simpa [walkF] using h
  | case2 relParts d n content kids rest ih =>
    intro h
    rw [walkF]
    exact ih (addProviderFromFile_atMostOnce env _ content d h)
  | case3 relParts d n kids rest ih1 ih2 =>
    intro h
    rw [walkF]
    exact ih2 (ih1 h)

theorem walkTree_atMostOnce (env : Env) (relParts : List String) (t : FTree)
    (d : List (String × ProviderInfo)) (h : AtMostOnce d) :
    AtMostOnce (walkTree env relParts t d) := by
  cases t with
  | node n desc kids =>
    cases desc with
    | none => exact walkF_atMostOnce env relParts kids d h
    | some content => exact addProviderFromFile_atMostOnce env _ content d h

theorem discoverLocalDict_atMostOnce (env : Env)
    (d : List (String × ProviderInfo)) (h : AtMostOnce d) :
    AtMostOnce (discoverLocalDict env d) := by
  rw [discoverLocalDict]
  by_cases hp : env.hasProvidersPackage
  · simp only [hp, ite_true, if_pos]
    have : ∀ (roots : List FTree) (d : List (String × ProviderInfo)), AtMostOnce d →
        AtMostOnce (roots.foldl (fun d r => walkTree env [] r d) d) := by
      intro roots
      induction roots with
      | nil => intro d h; simpa using h
      | cons r rest ih =>
        intro d h
        rw [List.foldl_cons]
        exact ih _ (walkTree_atMostOnce env [] r d h)
    exact this env.localRoots d h
  · simpa [hp] using h

theorem processDist_preserve (env : Env) (d : List (String × ProviderInfo))
    (dist : Dist) (k : String) (v : ProviderInfo)
    (h : pyLookup k d = some v) :
    pyLookup k (processDist env d dist).1 = some v ∧
    countKey k (processDist env d dist).1 = countKey k d := by
  unfold processDist
  by_cases h1 : (pyLookup dist.metadataName d).isSome
  · simp [h1, h]
  · have hnone : pyLookup dist.metadataName d = none :=
      Option.not_isSome_iff_eq_none.mp h1
    cases hl : dist.load with
    | error u => simp [h1, h]
    | ok m =>
      by_cases h2 : env.schemaValid m
      · by_cases h3 : dist.metadataName = m.packageName
        · rw [h3] at hnone
          rw [h3]
          have hkn : k ≠ m.packageName := by
            rintro rfl
            rw [h] at hnone
            cases hnone
          simp only [hnone, Option.isSome_none, Option.isNone_none, Bool.false_eq_true,
            if_false, ite_false, ite_true, eq_self_iff_true, not_true, ne_eq,
            not_false_iff, h2]
          refine ⟨pyLookup_append_left h, ?_⟩
          rw [countKey_append, countKey_singleton_ne _ (Ne.symm hkn)]
          omega
        · simp [h1, h2, h3, h]
      · simp [h1, h2, h]

theorem discoverPackagesDict_preserve (env : Env) (dists : List Dist) :
    ∀ (d d2 : List (String × ProviderInfo)),
    discoverPackagesDict env dists d = (d2, true) →
    ∀ (k : String) (v : ProviderInfo), pyLookup k d = some v →
    pyLookup k d2 = some v ∧ countKey k d2 = countKey k d := by
  induction dists with
  | nil =>
    intro d d2 h k v hv
    rw [discoverPackagesDict] at h
    cases h
    exact ⟨hv, rfl⟩
  | cons dist rest ih =>
    intro d d2 h k v hv
    rw [discoverPackagesDict] at h
    cases hp : processDist env d dist with
    | mk d' ok =>
      rw [hp] at h
      cases ok with
      | false => simp at h
      | true =>
        have hpre := processDist_preserve env d dist k v hv
        rw [hp] at hpre
        obtain ⟨hv', hc'⟩ := hpre
        have := ih d' d2 h k v hv'
        exact ⟨this.1, by rw [this.2, hc']⟩

/-- C3: when the in-source scan has registered a record for a package
name and the subsequent installed-package scan completes, the provider
table built by `initialize_providers_list` from a fresh manager maps that
name to exactly one record — the in-source one — whatever the installed
distributions declare. -/
theorem c3_in_source_wins (env : Env) (name : String) (r : ProviderInfo)
    (s' : MgrState)
    (hloc : pyLookup name (discoverLocalDict env []) = some r)
    (hinit : init_providers_list env initState = (s', true)) :
    countKey name s'.provider_dict = 1 ∧
    ∀ v : ProviderInfo, ((name, v) ∈ s'.provider_dict ↔ v = r) := by
  rw [init_providers_list, provider_info_cache_run] at hinit
  have hg : ¬ ("list" ∈ initState.cache) := by simp [initState]
  rw [if_neg hg] at hinit
  rw [list_body] at hinit
  simp only [initState] at hinit
  cases hd : discoverPackagesDict env env.dists (discoverLocalDict env []) with
  | mk d2 ok =>
    rw [hd] at hinit
    cases ok with
    | false => simp at hinit
    | true =>
      simp only [] at hinit
      have hpd : s'.provider_dict = sortDict d2 := by
        cases hinit
        rfl
      have hAtMost : AtMostOnce (discoverLocalDict env []) :=
        discoverLocalDict_atMostOnce env [] (fun k => by simp [countKey_nil])
      have h1 : countKey name (discoverLocalDict env []) = 1 :=
        le_antisymm (hAtMost name) (countKey_pos hloc)
      obtain ⟨hL2, hC2⟩ := discoverPackagesDict_preserve env env.dists
        (discoverLocalDict env []) d2 hd name r hloc
      have hC2' : countKey name d2 = 1 := by rw [hC2, h1]
      have hperm : List.Perm (sortDict d2) d2 := List.perm_insertionSort keyLe d2
      have hcount : countKey name s'.provider_dict = 1 := by
        rw [hpd]
        unfold countKey
        rw [List.Perm.length_eq (List.Perm.filter _ hperm)]
        exact hC2'
      refine ⟨hcount, ?_⟩
      intro v
      have hmemiff : (name, v) ∈ s'.provider_dict ↔ (name, v) ∈ d2 := by
        rw [hpd]
        exact List.Perm.mem_iff hperm
      rw [hmemiff]
      constructor
      · intro hv
        obtain ⟨x, hx⟩ := List.length_eq_one.mp hC2'
        have hvf : (name, v) ∈ d2.filter (fun e => e.1 = name) :=
          List.mem_filter.mpr ⟨hv, by simp⟩
        have hrf : (name, r) ∈ d2.filter (fun e => e.1 = name) :=
          List.mem_filter.mpr ⟨pyLookup_some_mem hL2, by simp⟩
        rw [hx] at hvf hrf
        have hva := List.mem_singleton.mp hvf
        have hra := List.mem_singleton.mp hrf
        have hvr : (name, v) = (name, r) := hva.trans hra.symm
        exact ((Prod.mk.injEq _ _ _ _).mp hvr).2
      · rintro rfl
        exact pyLookup_some_mem hL2

/-- Witness for C3: in `envC3` the name `apache-airflow-providers-a` is
declared both in-source (version `1.0`) and by an installed distribution
(version `9.9`); the final table holds exactly the in-source record. -/
theorem c3_witness :
    countKey "apache-airflow-providers-a" sC3.provider_dict = 1 ∧
    (("apache-airflow-providers-a", ProviderInfo.mk "1.0" mA) ∈ sC3.provider_dict ↔
      ProviderInfo.mk "1.0" mA = ProviderInfo.mk "1.0" mA) := by
  have hld : discoverLocalDict envC3 []
      = [("apache-airflow-providers-a", ProviderInfo.mk "1.0" mA)] := by
    rw [discoverLocalDict]
    simp only [envC3]
    rw [List.foldl_cons, List.foldl_nil, walkTree]
    simp only [walkF]
    decide
  have hloc : pyLookup "apache-airflow-providers-a" (discoverLocalDict envC3 [])
      = some (ProviderInfo.mk "1.0" mA) := by
    rw [hld]
    decide
  have hinit : init_providers_list envC3 initState = (sC3, true) := by
    simp only [init_providers_list, provider_info_cache_run, list_body, initState, hld]
    decide
  have h := c3_in_source_wins envC3 "apache-airflow-providers-a"
    (ProviderInfo.mk "1.0" mA) sC3 hloc hinit
  exact ⟨h.1, h.2 _⟩

/-! Frame lemmas: hook discovery and the extractors never touch the flag
dict, the call counter, or the provider table. -/

theorem add_customized_fields_frame (env : Env) (p : String) (hc : HookClass)
    (doc : String) (s : MgrState) :
    frame3 (add_customized_fields env p hc doc s) = frame3 s := by
  unfold add_customized_fields
  repeat' split
  all_goals rfl

theorem finish_insert_frame (n p : String) (hc : HookClass) (s : MgrState) :
    frame3 (finish_insert n p hc s) = frame3 s := by
  unfold finish_insert
  repeat' split
  all_goals rfl

theorem add_widgets_frame (p : String) (hc : HookClass)
    (ws : List (String × FieldClass)) (s : MgrState) :
    frame3 (add_widgets p hc ws s) = frame3 s := rfl

theorem add_hook_rest_frame (env : Env) (n p : String) (hc : HookClass)
    (s : MgrState) :
    frame3 (add_hook_rest env n p hc s) = frame3 s := by
  unfold add_hook_rest
  repeat' split
  all_goals simp [finish_insert_frame, add_customized_fields_frame]

theorem add_hook_frame (env : Env) (n p : String) (s : MgrState) :
    frame3 (add_hook env n p s) = frame3 s := by
  unfold add_hook
  repeat' split
  all_goals simp [add_hook_rest_frame, add_widgets_frame]

theorem foldl_frame {B : Type} (f : MgrState → B → MgrState)
    (hf : ∀ (s : MgrState) (b : B), frame3 (f s b) = frame3 s) :
    ∀ (l : List B) (s : MgrState), frame3 (List.foldl f s l) = frame3 s
  | [], s => rfl
  | b :: l, s => by
    rw [List.foldl_cons, foldl_frame f hf l (f s b), hf]

theorem discover_hooks_frame (env : Env) (s : MgrState) :
    frame3 (discover_hooks env s) = frame3 s := by
  rw [discover_hooks]
  exact foldl_frame _
    (fun st entry => foldl_frame _ (fun st n => add_hook_frame env n entry.1 st) _ st)
    s.provider_dict s

theorem discover_hooks_and_sort_frame (env : Env) (s : MgrState) :
    frame3 (discover_hooks_and_sort env s) = frame3 s :=
  discover_hooks_frame env s

theorem frame3_cache {t s : MgrState} (h : frame3 t = frame3 s) :
    t.cache = s.cache := congrArg Prod.fst h

theorem frame3_count {t s : MgrState} (h : frame3 t = frame3 s) :
    t.list_run_count = s.list_run_count := congrArg (fun x => x.2.1) h

theorem frame3_pd {t s : MgrState} (h : frame3 t = frame3 s) :
    t.provider_dict = s.provider_dict := congrArg (fun x => x.2.2) h

/-! Lemmas about the lazy-initialization layer. -/

theorem cache_run_mem (cache_name : String)
    (body : Env → MgrState → MgrState × Bool) (env : Env) (s : MgrState)
    (h : cache_name ∈ s.cache) :
    provider_info_cache_run cache_name body env s = (s, true) := by
  rw [provider_info_cache_run, if_pos h]

theorem init_list_mem (env : Env) (s : MgrState) (h : "list" ∈ s.cache) :
    init_providers_list env s = (s, true) :=
  cache_run_mem "list" list_body env s h

theorem hooks_body_mem (env : Env) (s : MgrState) (h : "list" ∈ s.cache) :
    hooks_body env s = (discover_hooks_and_sort env s, true) := by
  rw [hooks_body, init_list_mem env s h]

theorem extra_links_body_mem (env : Env) (s : MgrState) (h : "list" ∈ s.cache) :
    extra_links_body env s = (discover_extra_links env s, true) := by
  rw [extra_links_body, init_list_mem env s h]

theorem logging_body_mem (env : Env) (s : MgrState) (h : "list" ∈ s.cache) :
    logging_body env s = (discover_logging env s, true) := by
  rw [logging_body, init_list_mem env s h]

theorem secrets_backends_body_mem (env : Env) (s : MgrState) (h : "list" ∈ s.cache) :
    secrets_backends_body env s = (discover_secrets_backends env s, true) := by
  rw [secrets_backends_body, init_list_mem env s h]

theorem auth_backends_body_mem (env : Env) (s : MgrState) (h : "list" ∈ s.cache) :
    auth_backends_body env s = (discover_auth_backends env s, true) := by
  rw [auth_backends_body, init_list_mem env s h]

theorem init_list_preserve (env : Env) (s : MgrState) (hm : "list" ∈ s.cache) :
    (init_providers_list env s).1.list_run_count = s.list_run_count ∧
    "list" ∈ (init_providers_list env s).1.cache := by
  rw [init_list_mem env s hm]
  exact ⟨rfl, hm⟩

theorem init_hooks_preserve (env : Env) (s : MgrState) (hm : "list" ∈ s.cache) :
    (init_providers_hooks env s).1.list_run_count = s.list_run_count ∧
    "list" ∈ (init_providers_hooks env s).1.cache := by
  rw [init_providers_hooks]
  by_cases hh : "hooks" ∈ s.cache
  · rw [cache_run_mem _ _ env s hh]
    exact ⟨rfl, hm⟩
  · rw [provider_info_cache_run, if_neg hh, hooks_body_mem env s hm]
    have hf := discover_hooks_and_sort_frame env s
    constructor
    · show (discover_hooks_and_sort env s).list_run_count = s.list_run_count
      exact frame3_count hf
    · show "list" ∈ "hooks" :: (discover_hooks_and_sort env s).cache
      apply List.mem_cons_of_mem
      rw [frame3_cache hf]
      exact hm

theorem init_extra_links_preserve (env : Env) (s : MgrState) (hm : "list" ∈ s.cache) :
    (init_providers_extra_links env s).1.list_run_count = s.list_run_count ∧
    "list" ∈ (init_providers_extra_links env s).1.cache := by
  rw [init_providers_extra_links]
  by_cases hh : "extra_links" ∈ s.cache
  · rw [cache_run_mem _ _ env s hh]
    exact ⟨rfl, hm⟩
  · rw [provider_info_cache_run, if_neg hh, extra_links_body_mem env s hm]
    exact ⟨rfl, List.mem_cons_of_mem _ hm⟩

theorem init_logging_preserve (env : Env) (s : MgrState) (hm : "list" ∈ s.cache) :
    (init_providers_logging env s).1.list_run_count = s.list_run_count ∧
    "list" ∈ (init_providers_logging env s).1.cache := by
  rw [init_providers_logging]
  by_cases hh : "logging" ∈ s.cache
  · rw [cache_run_mem _ _ env s hh]
    exact ⟨rfl, hm⟩
  · rw [provider_info_cache_run, if_neg hh, logging_body_mem env s hm]
    exact ⟨rfl, List.mem_cons_of_mem _ hm⟩

theorem init_secrets_preserve (env : Env) (s : MgrState) (hm : "list" ∈ s.cache) :
    (init_providers_secrets_backends env s).1.list_run_count = s.list_run_count ∧
    "list" ∈ (init_providers_secrets_backends env s).1.cache := by
  rw [init_providers_secrets_backends]
  by_cases hh : "secrets_backends" ∈ s.cache
  · rw [cache_run_mem _ _ env s hh]
    exact ⟨rfl, hm⟩
  · rw [provider_info_cache_run, if_neg hh, secrets_backends_body_mem env s hm]
    exact ⟨rfl, List.mem_cons_of_mem _ hm⟩

theorem init_auth_preserve (env : Env) (s : MgrState) (hm : "list" ∈ s.cache) :
    (init_providers_auth_backends env s).1.list_run_count = s.list_run_count ∧
    "list" ∈ (init_providers_auth_backends env s).1.cache := by
  rw [init_providers_auth_backends]
  by_cases hh : "auth_backends" ∈ s.cache
  · rw [cache_run_mem _ _ env s hh]
    exact ⟨rfl, hm⟩
  · rw [provider_info_cache_run, if_neg hh, auth_backends_body_mem env s hm]
    exact ⟨rfl, List.mem_cons_of_mem _ hm⟩

theorem run_access_preserve (env : Env) (a : Accessor) (s : MgrState)
    (hm : "list" ∈ s.cache) :
    (run_access env a s).1.list_run_count = s.list_run_count ∧
    "list" ∈ (run_access env a s).1.cache := by
  cases a with
  | providers =>
    have h := init_list_preserve env s hm
    cases hres : init_providers_list env s with
    | mk s1 b =>
      rw [hres] at h
      cases b <;> simpa [run_access, hres] using h
  | hooks =>
    have h := init_hooks_preserve env s hm
    cases hres : init_providers_hooks env s with
    | mk s1 b =>
      rw [hres] at h
      cases b <;> simpa [run_access, hres] using h
  | connectionFormWidgets =>
    have h := init_hooks_preserve env s hm
    cases hres : init_providers_hooks env s with
    | mk s1 b =>
      rw [hres] at h
      cases b <;> simpa [run_access, hres] using h
  | fieldBehaviours =>
    have h := init_hooks_preserve env s hm
    cases hres : init_providers_hooks env s with
    | mk s1 b =>
      rw [hres] at h
      cases b <;> simpa [run_access, hres] using h
  | extraLinks =>
    have h := init_extra_links_preserve env s hm
    cases hres : init_providers_extra_links env s with
    | mk s1 b =>
      rw [hres] at h
      cases b <;> simpa [run_access, hres] using h
  | loggingClasses =>
    have h := init_logging_preserve env s hm
    cases hres : init_providers_logging env s with
    | mk s1 b =>
      rw [hres] at h
      cases b <;> simpa [run_access, hres] using h
  | secretsBackendClasses =>
    have h := init_secrets_preserve env s hm
    cases hres : init_providers_secrets_backends env s with
    | mk s1 b =>
      rw [hres] at h
      cases b <;> simpa [run_access, hres] using h
  | authBackendModules =>
    have h := init_auth_preserve env s hm
    cases hres : init_providers_auth_backends env s with
    | mk s1 b =>
      rw [hres] at h
      cases b <;> simpa [run_access, hres] using h

theorem runSeq_preserve (env : Env) :
    ∀ (accs : List Accessor) (s : MgrState), "list" ∈ s.cache →
    (runSeq env accs s).list_run_count = s.list_run_count ∧
    "list" ∈ (runSeq env accs s).cache := by
  intro accs
  induction accs with
  | nil =>
    intro s hm
    exact ⟨rfl, hm⟩
  | cons a rest ih =>
    intro s hm
    obtain ⟨h1, h2⟩ := run_access_preserve env a s hm
    obtain ⟨h3, h4⟩ := ih ((run_access env a s).1) h2
    rw [runSeq, List.foldl_cons]
    exact ⟨by rw [show List.foldl (fun s a => (run_access env a s).1)
        ((run_access env a s).1) rest = runSeq env rest ((run_access env a s).1) from rfl,
        h3, h1], by
      rw [show List.foldl (fun s a => (run_access env a s).1)
        ((run_access env a s).1) rest = runSeq env rest ((run_access env a s).1) from rfl]
      exact h4⟩

/-! Claim C5. -/

theorem list_body_count (env : Env) (s s1 : MgrState) (b : Bool)
    (h : list_body env s = (s1, b)) :
    s1.list_run_count = s.list_run_count + 1 := by
  simp only [list_body] at h
  cases hd : discoverPackagesDict env env.dists (discoverLocalDict env s.provider_dict) with
  | mk d2 ok =>
    rw [hd] at h
    cases ok <;> cases h <;> rfl

theorem run_access_fresh (env : Env) (a : Accessor) (s : MgrState) (v : View)
    (hc : s.cache = []) (h : (run_access env a s).2 = .ok v) :
    (run_access env a s).1.list_run_count = s.list_run_count + 1 ∧
    "list" ∈ (run_access env a s).1.cache := by
  have hm : "list" ∉ s.cache := by rw [hc]; simp
  have hlist : ∀ (s2 : MgrState) (b2 : Bool),
      init_providers_list env s = (s2, b2) → b2 = true →
      s2.list_run_count = s.list_run_count + 1 ∧ "list" ∈ s2.cache := by
    intro s2 b2 h2 hb2
    subst hb2
    rw [init_providers_list, provider_info_cache_run, if_neg hm] at h2
    cases hb : list_body env s with
    | mk s3 b3 =>
      rw [hb] at h2
      cases b3 with
      | false => simp at h2
      | true =>
        cases h2
        exact ⟨list_body_count env s s3 true hb, List.mem_cons_self _ _⟩
  have hhooks : ∀ (s2 : MgrState) (b2 : Bool),
      init_providers_hooks env s = (s2, b2) → b2 = true →
      s2.list_run_count = s.list_run_count + 1 ∧ "list" ∈ s2.cache := by
    intro s2 b2 h2 hb2
    subst hb2
    have hh : "hooks" ∉ s.cache := by rw [hc]; simp
    rw [init_providers_hooks, provider_info_cache_run, if_neg hh, hooks_body] at h2
    cases hl : init_providers_list env s with
    | mk s3 b3 =>
      rw [hl] at h2
      cases b3 with
      | false => simp at h2
      | true =>
        obtain ⟨hcnt, hmem⟩ := hlist s3 true hl rfl
        cases h2
        have hf := discover_hooks_and_sort_frame env s3
        constructor
        · show (discover_hooks_and_sort env s3).list_run_count = s.list_run_count + 1
          rw [frame3_count hf, hcnt]
        · show "list" ∈ "hooks" :: (discover_hooks_and_sort env s3).cache
          apply List.mem_cons_of_mem
          rw [frame3_cache hf]
          exact hmem
  cases a with
  | providers =>
    cases hres : init_providers_list env s with
    | mk s1 b =>
      cases b with
      | false => rw [run_access, hres] at h; cases h
      | true =>
        rw [run_access, hres]
        exact hlist s1 true hres rfl
  | hooks =>
    cases hres : init_providers_hooks env s with
    | mk s1 b =>
      cases b with
      | false => rw [run_access, hres] at h; cases h
      | true =>
        rw [run_access, hres]
        exact hhooks s1 true hres rfl
  | connectionFormWidgets =>
    cases hres : init_providers_hooks env s with
    | mk s1 b =>
      cases b with
      | false => rw [run_access, hres] at h; cases h
      | true =>
        rw [run_access, hres]
        exact hhooks s1 true hres rfl
  | fieldBehaviours =>
    cases hres : init_providers_hooks env s with
    | mk s1 b =>
      cases b with
      | false => rw [run_access, hres] at h; cases h
      | true =>
        rw [run_access, hres]
        exact hhooks s1 true hres rfl
  | extraLinks =>
    have hh : "extra_links" ∉ s.cache := by rw [hc]; simp
    cases hres : init_providers_extra_links env s with
    | mk s1 b =>
      cases b with
      | false => rw [run_access, hres] at h; cases h
      | true =>
        rw [run_access, hres]
        rw [init_providers_extra_links, provider_info_cache_run, if_neg hh,
          extra_links_body] at hres
        cases hl : init_providers_list env s with
        | mk s3 b3 =>
          rw [hl] at hres
          cases b3 with
          | false => simp at hres
          | true =>
            obtain ⟨hcnt, hmem⟩ := hlist s3 true hl rfl
            cases hres
            exact ⟨hcnt, List.mem_cons_of_mem _ hmem⟩
  | loggingClasses =>
    have hh : "logging" ∉ s.cache := by rw [hc]; simp
    cases hres : init_providers_logging env s with
    | mk s1 b =>
      cases b with
      | false => rw [run_access, hres] at h; cases h
      | true =>
        rw [run_access, hres]
        rw [init_providers_logging, provider_info_cache_run, if_neg hh,
          logging_body] at hres
        cases hl : init_providers_list env s with
        | mk s3 b3 =>
          rw [hl] at hres
          cases b3 with
          | false => simp at hres
          | true =>
            obtain ⟨hcnt, hmem⟩ := hlist s3 true hl rfl
            cases hres
            exact ⟨hcnt, List.mem_cons_of_mem _ hmem⟩
  | secretsBackendClasses =>
    have hh : "secrets_backends" ∉ s.cache := by rw [hc]; simp
    cases hres : init_providers_secrets_backends env s with
    | mk s1 b =>
      cases b with
      | false => rw [run_access, hres] at h; cases h
      | true =>
        rw [run_access, hres]
        rw [init_providers_secrets_backends, provider_info_cache_run, if_neg hh,
          secrets_backends_body] at hres
        cases hl : init_providers_list env s with
        | mk s3 b3 =>
          rw [hl] at hres
          cases b3 with
          | false => simp at hres
          | true =>
            obtain ⟨hcnt, hmem⟩ := hlist s3 true hl rfl
            cases hres
            exact ⟨hcnt, List.mem_cons_of_mem _ hmem⟩
  | authBackendModules =>
    have hh : "auth_backends" ∉ s.cache := by rw [hc]; simp
    cases hres : init_providers_auth_backends env s with
    | mk s1 b =>
      cases b with
      | false => rw [run_access, hres] at h; cases h
      | true =>
        rw [run_access, hres]
        rw [init_providers_auth_backends, provider_info_cache_run, if_neg hh,
          auth_backends_body] at hres
        cases hl : init_providers_list env s with
        | mk s3 b3 =>
          rw [hl] at hres
          cases b3 with
          | false => simp at hres
          | true =>
            obtain ⟨hcnt, hmem⟩ := hlist s3 true hl rfl
            cases hres
            exact ⟨hcnt, List.mem_cons_of_mem _ hmem⟩

/-- C5: after a first read-surface access from a fresh manager has run
the `list` initialization to completion, any further sequence of accesses
to any accessors leaves the `list` body's execution count at exactly one:
the per-category flag set by the decorator prevents re-execution. -/
theorem c5_list_runs_once (env : Env) (a : Accessor) (accs : List Accessor)
    (v : View) (h : (run_access env a initState).2 = .ok v) :
    (runSeq env accs ((run_access env a initState).1)).list_run_count = 1 := by
  obtain ⟨h1, h2⟩ := run_access_fresh env a initState v rfl h
  obtain ⟨h3, _⟩ := runSeq_preserve env accs ((run_access env a initState).1) h2
  rw [h3, h1]
  rfl

/-- Witness for C5: one successful `providers` access followed by three
more accesses leaves the counter at one. -/
theorem c5_witness :
    (runSeq envEmpty
      [Accessor.hooks, Accessor.extraLinks, Accessor.providers]
      ((run_access envEmpty Accessor.providers initState).1)).list_run_count = 1 :=
  c5_list_runs_once envEmpty Accessor.providers
    [Accessor.hooks, Accessor.extraLinks, Accessor.providers]
    (View.providersV []) rfl

/-! Claim C8. -/

theorem sortDict_sorted {α : Type} (d : List (String × α)) :
    List.Sorted keyLe (sortDict d) :=
  List.sorted_insertionSort keyLe d

theorem sortNames_sorted (l : List String) :
    List.Sorted (fun a b : String => a ≤ b) (sortNames l) :=
  List.sorted_insertionSort _ l

theorem sortInv_initState : SortInv initState := by
  constructor <;> intro h <;> simp [initState] at h

theorem sortInv_cons_cache (s1 : MgrState) (nm : String)
    (h1 : nm ≠ "list") (h2 : nm ≠ "hooks") (hInv : SortInv s1) :
    SortInv { s1 with cache := nm :: s1.cache } := by
  constructor
  · intro hm
    rcases List.mem_cons.mp hm with he | hm2
    · exact absurd he.symm h1
    · exact hInv.1 hm2
  · intro hm
    rcases List.mem_cons.mp hm with he | hm2
    · exact absurd he.symm h2
    · exact hInv.2 hm2

theorem list_body_shape (env : Env) (s s1 : MgrState) (b : Bool)
    (h : list_body env s = (s1, b)) :
    s1.cache = s.cache ∧ s1.hooks_dict = s.hooks_dict ∧
    s1.connection_form_widgets = s.connection_form_widgets ∧
    s1.field_behaviours = s.field_behaviours ∧
    (b = true → List.Sorted keyLe s1.provider_dict) := by
  simp only [list_body] at h
  cases hd : discoverPackagesDict env env.dists (discoverLocalDict env s.provider_dict) with
  | mk d2 ok =>
    rw [hd] at h
    cases ok with
    | false =>
      cases h
      refine ⟨rfl, rfl, rfl, rfl, ?_⟩
      intro hb
      cases hb
    | true =>
      cases h
      exact ⟨rfl, rfl, rfl, rfl, fun _ => sortDict_sorted d2⟩

theorem init_list_sortinv (env : Env) (s s' : MgrState) (b : Bool)
    (hInv : SortInv s) (h : init_providers_list env s = (s', b)) :
    SortInv s' ∧ (b = true → "list" ∈ s'.cache) := by
  rw [init_providers_list, provider_info_cache_run] at h
  by_cases hm : "list" ∈ s.cache
  · rw [if_pos hm] at h
    cases h
    exact ⟨hInv, fun _ => hm⟩
  · rw [if_neg hm] at h
    cases hb : list_body env s with
    | mk s1 bb =>
      rw [hb] at h
      obtain ⟨hcache, hhd, hcw, hfb, hsorted⟩ := list_body_shape env s s1 bb hb
      cases bb with
      | false =>
        cases h
        refine ⟨⟨?_, ?_⟩, ?_⟩
        · intro hmem
          rw [hcache] at hmem
          exact absurd hmem hm
        · intro hmem
          rw [hcache] at hmem
          rw [hhd, hcw, hfb]
          exact hInv.2 hmem
        · intro hfalse
          cases hfalse
      | true =>
        cases h
        refine ⟨⟨?_, ?_⟩, ?_⟩
        · intro _
          exact hsorted rfl
        · intro hmem
          have hmem2 : "hooks" ∈ s1.cache := by
            rcases List.mem_cons.mp hmem with he | hm2
            · exact absurd he (by decide)
            · exact hm2
          rw [hcache] at hmem2
          rw [hhd, hcw, hfb]
          exact hInv.2 hmem2
        · intro _
          exact List.mem_cons_self _ _

theorem hooks_body_shape (env : Env) (s s1 : MgrState) (b : Bool)
    (hInv : SortInv s) (h : hooks_body env s = (s1, b)) :
    SortInv s1 ∧ (b = true →
      List.Sorted keyLe s1.hooks_dict ∧
      List.Sorted keyLe s1.connection_form_widgets ∧
      List.Sorted keyLe s1.field_behaviours) := by
  rw [hooks_body] at h
  cases hl : init_providers_list env s with
  | mk s2 ok =>
    rw [hl] at h
    obtain ⟨hInv2, hmem⟩ := init_list_sortinv env s s2 ok hInv hl
    cases ok with
    | false =>
      cases h
      refine ⟨hInv2, ?_⟩
      intro hfalse
      cases hfalse
    | true =>
      cases h
      have hf := discover_hooks_and_sort_frame env s2
      constructor
      · constructor
        · intro hmem2
          rw [frame3_cache hf] at hmem2
          rw [frame3_pd hf]
          exact hInv2.1 hmem2
        · intro _
          exact ⟨sortDict_sorted _, sortDict_sorted _, sortDict_sorted _⟩
      · intro _
        exact ⟨sortDict_sorted _, sortDict_sorted _, sortDict_sorted _⟩

/-- Setting the `hooks` flag preserves the invariant when the three
hook-side tables are sorted. -/
theorem sortInv_cons_hooks (s1 : MgrState)
    (hInv : SortInv s1)
    (hs : List.Sorted keyLe s1.hooks_dict ∧
      List.Sorted keyLe s1.connection_form_widgets ∧
      List.Sorted keyLe s1.field_behaviours) :
    SortInv { s1 with cache := "hooks" :: s1.cache } := by
  constructor
  · intro hm
    rcases List.mem_cons.mp hm with he | hm2
    · exact absurd he (by decide)
    · exact hInv.1 hm2
  · intro _
    exact hs

theorem init_hooks_sortinv (env : Env) (s s' : MgrState) (b : Bool)
    (hInv : SortInv s) (h : init_providers_hooks env s = (s', b)) :
    SortInv s' ∧ (b = true →
      List.Sorted keyLe s'.hooks_dict ∧
      List.Sorted keyLe s'.connection_form_widgets ∧
      List.Sorted keyLe s'.field_behaviours) := by
  rw [init_providers_hooks, provider_info_cache_run] at h
  by_cases hm : "hooks" ∈ s.cache
  · rw [if_pos hm] at h
    cases h
    exact ⟨hInv, fun _ => hInv.2 hm⟩
  · rw [if_neg hm] at h
    cases hb : hooks_body env s with
    | mk s1 bb =>
      rw [hb] at h
      obtain ⟨hInv1, hsorted⟩ := hooks_body_shape env s s1 bb hInv hb
      cases bb with
      | false =>
        cases h
        refine ⟨hInv1, ?_⟩
        intro hfalse
        cases hfalse
      | true =>
        cases h
        refine ⟨sortInv_cons_hooks s1 hInv1 (hsorted rfl), ?_⟩
        intro _
        exact hsorted rfl

theorem extra_links_body_sortinv (env : Env) (s s1 : MgrState) (b : Bool)
    (hInv : SortInv s) (h : extra_links_body env s = (s1, b)) : SortInv s1 := by
  rw [extra_links_body] at h
  cases hl : init_providers_list env s with
  | mk s2 ok =>
    rw [hl] at h
    have hInv2 := (init_list_sortinv env s s2 ok hInv hl).1
    cases ok with
    | false => cases h; exact hInv2
    | true => cases h; exact hInv2

theorem logging_body_sortinv (env : Env) (s s1 : MgrState) (b : Bool)
    (hInv : SortInv s) (h : logging_body env s = (s1, b)) : SortInv s1 := by
  rw [logging_body] at h
  cases hl : init_providers_list env s with
  | mk s2 ok =>
    rw [hl] at h
    have hInv2 := (init_list_sortinv env s s2 ok hInv hl).1
    cases ok with
    | false => cases h; exact hInv2
    | true => cases h; exact hInv2

theorem secrets_backends_body_sortinv (env : Env) (s s1 : MgrState) (b : Bool)
    (hInv : SortInv s) (h : secrets_backends_body env s = (s1, b)) : SortInv s1 := by
  rw [secrets_backends_body] at h
  cases hl : init_providers_list env s with
  | mk s2 ok =>
    rw [hl] at h
    have hInv2 := (init_list_sortinv env s s2 ok hInv hl).1
    cases ok with
    | false => cases h; exact hInv2
    | true => cases h; exact hInv2

theorem auth_backends_body_sortinv (env : Env) (s s1 : MgrState) (b : Bool)
    (hInv : SortInv s) (h : auth_backends_body env s = (s1, b)) : SortInv s1 := by
  rw [auth_backends_body] at h
  cases hl : init_providers_list env s with
  | mk s2 ok =>
    rw [hl] at h
    have hInv2 := (init_list_sortinv env s s2 ok hInv hl).1
    cases ok with
    | false => cases h; exact hInv2
    | true => cases h; exact hInv2

theorem cache_run_set_sortinv (nm : String) (hn1 : nm ≠ "list") (hn2 : nm ≠ "hooks")
    (body : Env → MgrState → MgrState × Bool)
    (hbody : ∀ (env : Env) (s s1 : MgrState) (b : Bool),
      SortInv s → body env s = (s1, b) → SortInv s1)
    (env : Env) (s s' : MgrState) (b : Bool) (hInv : SortInv s)
    (h : provider_info_cache_run nm body env s = (s', b)) : SortInv s' := by
  rw [provider_info_cache_run] at h
  by_cases hm : nm ∈ s.cache
  · rw [if_pos hm] at h
    cases h
    exact hInv
  · rw [if_neg hm] at h
    cases hb : body env s with
    | mk s1 bb =>
      rw [hb] at h
      have hInv1 := hbody env s s1 bb hInv hb
      cases bb with
      | false => cases h; exact hInv1
      | true => cases h; exact sortInv_cons_cache s1 nm hn1 hn2 hInv1

theorem run_access_sortinv (env : Env) (a : Accessor) (s : MgrState)
    (hInv : SortInv s) : SortInv (run_access env a s).1 := by
  cases a with
  | providers =>
    cases hres : init_providers_list env s with
    | mk s1 b =>
      cases b <;> simp only [run_access, hres] <;>
        exact (init_list_sortinv env s s1 _ hInv hres).1
  | hooks =>
    cases hres : init_providers_hooks env s with
    | mk s1 b =>
      cases b <;> simp only [run_access, hres] <;>
        exact (init_hooks_sortinv env s s1 _ hInv hres).1
  | connectionFormWidgets =>
    cases hres : init_providers_hooks env s with
    | mk s1 b =>
      cases b <;> simp only [run_access, hres] <;>
        exact (init_hooks_sortinv env s s1 _ hInv hres).1
  | fieldBehaviours =>
    cases hres : init_providers_hooks env s with
    | mk s1 b =>
      cases b <;> simp only [run_access, hres] <;>
        exact (init_hooks_sortinv env s s1 _ hInv hres).1
  | extraLinks =>
    cases hres : init_providers_extra_links env s with
    | mk s1 b =>
      cases b <;> simp only [run_access, hres] <;>
        exact cache_run_set_sortinv "extra_links" (by decide) (by decide)
          extra_links_body (extra_links_body_sortinv) env s s1 _ hInv hres
  | loggingClasses =>
    cases hres : init_providers_logging env s with
    | mk s1 b =>
      cases b <;> simp only [run_access, hres] <;>
        exact cache_run_set_sortinv "logging" (by decide) (by decide)
          logging_body (logging_body_sortinv) env s s1 _ hInv hres
  | secretsBackendClasses =>
    cases hres : init_providers_secrets_backends env s with
    | mk s1 b =>
      cases b <;> simp only [run_access, hres] <;>
        exact cache_run_set_sortinv "secrets_backends" (by decide) (by decide)
          secrets_backends_body (secrets_backends_body_sortinv) env s s1 _ hInv hres
  | authBackendModules =>
    cases hres : init_providers_auth_backends env s with
    | mk s1 b =>
      cases b <;> simp only [run_access, hres] <;>
        exact cache_run_set_sortinv "auth_backends" (by decide) (by decide)
          auth_backends_body (auth_backends_body_sortinv) env s s1 _ hInv hres

theorem run_access_sorted_view (env : Env) (a : Accessor) (s : MgrState)
    (v : View) (hInv : SortInv s) (h : (run_access env a s).2 = .ok v) :
    viewSorted v := by
  cases a with
  | providers =>
    cases hres : init_providers_list env s with
    | mk s1 b =>
      cases b with
      | false => rw [run_access, hres] at h; cases h
      | true =>
        rw [run_access, hres] at h
        obtain ⟨hInv1, hmem⟩ := init_list_sortinv env s s1 true hInv hres
        cases h
        exact hInv1.1 (hmem rfl)
  | hooks =>
    cases hres : init_providers_hooks env s with
    | mk s1 b =>
      cases b with
      | false => rw [run_access, hres] at h; cases h
      | true =>
        rw [run_access, hres] at h
        obtain ⟨_, hs⟩ := init_hooks_sortinv env s s1 true hInv hres
        cases h
        exact (hs rfl).1
  | connectionFormWidgets =>
    cases hres : init_providers_hooks env s with
    | mk s1 b =>
      cases b with
      | false => rw [run_access, hres] at h; cases h
      | true =>
        rw [run_access, hres] at h
        obtain ⟨_, hs⟩ := init_hooks_sortinv env s s1 true hInv hres
        cases h
        exact (hs rfl).2.1
  | fieldBehaviours =>
    cases hres : init_providers_hooks env s with
    | mk s1 b =>
      cases b with
      | false => rw [run_access, hres] at h; cases h
      | true =>
        rw [run_access, hres] at h
        obtain ⟨_, hs⟩ := init_hooks_sortinv env s s1 true hInv hres
        cases h
        exact (hs rfl).2.2
  | extraLinks =>
    cases hres : init_providers_extra_links env s with
    | mk s1 b =>
      cases b with
      | false => rw [run_access, hres] at h; cases h
      | true =>
        rw [run_access, hres] at h
        cases h
        exact sortNames_sorted _
  | loggingClasses =>
    cases hres : init_providers_logging env s with
    | mk s1 b =>
      cases b with
      | false => rw [run_access, hres] at h; cases h
      | true =>
        rw [run_access, hres] at h
        cases h
        exact sortNames_sorted _
  | secretsBackendClasses =>
    cases hres : init_providers_secrets_backends env s with
    | mk s1 b =>
      cases b with
      | false => rw [run_access, hres] at h; cases h
      | true =>
        rw [run_access, hres] at h
        cases h
        exact sortNames_sorted _
  | authBackendModules =>
    cases hres : init_providers_auth_backends env s with
    | mk s1 b =>
      cases b with
      | false => rw [run_access, hres] at h; cases h
      | true =>
        rw [run_access, hres] at h
        cases h
        exact sortNames_sorted _

/-- C8: every view the read surface returns — provider, hook, widget
and field-behaviour tables, and the four class/module-name lists — is
enumerated in lexicographic key order, whatever sequence of accesses
produced the state from a fresh manager and whatever order discovery and
extraction encountered the entries in (the environment is arbitrary). -/
theorem c8_views_sorted (env : Env) (accs : List Accessor) (a : Accessor)
    (v : View)
    (h : (run_access env a (runSeq env accs initState)).2 = .ok v) :
    viewSorted v := by
  have hInvN : SortInv (runSeq env accs initState) := by
    have hgen : ∀ (l : List Accessor) (s : MgrState), SortInv s →
        SortInv (runSeq env l s) := by
      intro l
      induction l with
      | nil =>
        intro s hs
        exact hs
      | cons a1 rest ih =>
        intro s hs
        rw [runSeq, List.foldl_cons]
        exact ih ((run_access env a1 s).1) (run_access_sortinv env a1 s hs)
    exact hgen accs initState sortInv_initState
  exact run_access_sorted_view env a _ v hInvN h

/-- Witness for C8: the `providers` view of an empty environment is
returned and is sorted. -/
theorem c8_witness : viewSorted (View.providersV []) :=
  c8_views_sorted envEmpty [] Accessor.providers (View.providersV []) rfl

end Airflow
